import Mathlib

/-!
Verification development for the DPP Discord-client shard runtime.

This file gives a shallow embedding of the parts of the repository that the
statements below are about: the JSON data model used by the decoders, the
slash-command JSON builder, the interaction parser, the interaction-response
builder, the per-shard outbound message queue, the heartbeat tick and the
voice-connection readiness predicates, together with theorems settling the
corresponding specification statements.

Functions whose bodies are present in the provided sources are translated
directly from them; functions whose bodies are not in the provided source
tree (only their declarations or callers are) carry a doc comment starting
with the words Modelled from the spec and follow the specification text.
-/

/-- JSON value tree, mirroring the nlohmann::json values manipulated by the
source. Objects are kept as association lists in assignment order; the
source serialises with sorted keys, but every statement below is structural,
so only the set of key/value pairs matters. -/
inductive Json where
  | null : Json
  | bool (b : Bool) : Json
  | num (n : Nat) : Json
  | str (s : String) : Json
  | arr (elems : List Json) : Json
  | obj (fields : List (String × Json)) : Json

/-- Lookup of a key in an object field list: first match wins, as in the
unique-key std::map backing nlohmann::json objects. -/
def lookupKey (k : String) : List (String × Json) → Option Json
  | [] => none
  | (k2, v) :: rest => if k2 = k then some v else lookupKey k rest

/-- Field access on a JSON value: some value when the value is an object
containing the key, none otherwise (models find() != end()). -/
def getField (j : Json) (k : String) : Option Json :=
  match j with
  | Json.obj fs => lookupKey k fs
  | _ => none

/-- Index access modelling j[k] on a json reference: the field when present,
null otherwise. -/
def jsonIndex (j : Json) (k : String) : Json :=
  (getField j k).getD Json.null

/-- Modelled from the spec: the helper SnowflakeNotNull of discordevents is
not in the provided sources. Per the spec, identifiers are 64-bit
snowflakes read from the d object, null or missing fields reading as 0
(the null snowflake). Snowflakes arrive on the wire as strings or numbers. -/
def SnowflakeNotNull (j : Json) (k : String) : Nat :=
  match getField j k with
  | some (Json.str s) => (s.toNat?).getD 0
  | some (Json.num n) => n
  | _ => 0

/-- Modelled from the spec: the helper StringNotNull of discordevents is not
in the provided sources; it reads a string field, empty when missing or
null. -/
def StringNotNull (j : Json) (k : String) : String :=
  match getField j k with
  | some (Json.str s) => s
  | _ => ""

/-- Modelled from the spec: the helper Int8NotNull of discordevents is not in
the provided sources; it reads an 8-bit integer field, 0 when missing or
null. -/
def Int8NotNull (j : Json) (k : String) : Nat :=
  match getField j k with
  | some (Json.num n) => n % 256
  | _ => 0

/-- Modelled from the spec: the helper Int32NotNull of discordevents is not
in the provided sources; it reads a 32-bit integer field, 0 when missing or
null. -/
def Int32NotNull (j : Json) (k : String) : Nat :=
  match getField j k with
  | some (Json.num n) => n % 4294967296
  | _ => 0

/-- Modelled from the spec: the helper BoolNotNull of discordevents is not in
the provided sources; it reads a boolean field, false when missing or
null. -/
def BoolNotNull (j : Json) (k : String) : Bool :=
  match getField j k with
  | some (Json.bool b) => b
  | _ => false

/-- Cached guild entity (only identity matters to the statements below; the
cache is an external collaborator returning a borrow or null). -/
structure guild where
  id : Nat
deriving DecidableEq

/-- Cached user entity. -/
structure user where
  id : Nat
deriving DecidableEq

/-- Cached channel entity. -/
structure channel where
  id : Nat
deriving DecidableEq

/-- Cached emoji entity. -/
structure emoji where
  id : Nat
deriving DecidableEq

/-- Event record for MESSAGE_REACTION_ADD, with non-owning (optional)
references into the cache, as populated by message_reaction_add::handle. -/
structure message_reaction_add_t where
  reacting_guild : Option guild
  reacting_user : Option user
  reacting_channel : Option channel
  message_id : Nat
  reacting_emoji : Option emoji
deriving DecidableEq

/-- Translation of message_reaction_add::handle (events file): when a
message_reaction_add handler is registered, read d, resolve the referenced
snowflakes through the cache lookups, and invoke the handler only when the
reacting user and reacting channel resolved and the message id is nonzero.
The returned option is the record passed to the handler when it is invoked,
none when the event is dropped. The cache lookups find_guild, find_user,
find_channel and find_emoji are passed in as functions (the cache is an
external collaborator). -/
def message_reaction_add.handle (registered : Bool)
    (find_guild : Nat → Option guild) (find_user : Nat → Option user)
    (find_channel : Nat → Option channel) (find_emoji : Nat → Option emoji)
    (j : Json) : Option message_reaction_add_t :=
  if registered then
    let d := jsonIndex j ("d")
    let mra : message_reaction_add_t :=
      { reacting_guild := find_guild (SnowflakeNotNull d ("guild_id"))
        reacting_user := find_user (SnowflakeNotNull d ("user_id"))
        reacting_channel := find_channel (SnowflakeNotNull d ("channel_id"))
        message_id := SnowflakeNotNull d ("message_id")
        reacting_emoji := find_emoji (SnowflakeNotNull (jsonIndex d ("emoji")) ("id")) }
    if mra.reacting_user.isSome && mra.reacting_channel.isSome && mra.message_id != 0 then
      some mra
    else
      none
  else
    none

/-- User cache as an association list keyed by snowflake (lookup/insert
interface of the external cache). -/
def lookupUser (uid : Nat) : List (Nat × user) → Option user
  | [] => none
  | (k, u) :: rest => if k = uid then some u else lookupUser uid rest

/-- In-place replacement of the first cache entry with the given key,
modelling mutation of the cached object through a borrowed pointer. -/
def updateUser (uid : Nat) (u : user) : List (Nat × user) → List (Nat × user)
  | [] => []
  | (k, v) :: rest => if k = uid then (k, u) :: rest else (k, v) :: updateUser uid u rest

/-- Translation of user_update::handle (events file): read d.id; when it is
nonzero and the user is cached, mutate the cached entry in place through
user::fill_from_json (whose body is not in the provided sources, so it is
abstracted as the function argument fill), then invoke the user_update
handler when one is registered. Returns the resulting cache and whether the
handler was invoked. -/
def user_update.handle (registered : Bool) (fill : user → Json → user)
    (cache : List (Nat × user)) (j : Json) : List (Nat × user) × Bool :=
  let d := jsonIndex j ("d")
  let user_id := SnowflakeNotNull d ("id")
  if user_id ≠ 0 then
    match lookupUser user_id cache with
    | some u => (updateUser user_id (fill u d) cache, registered)
    | none => (cache, false)
  else
    (cache, false)

theorem lookupUser_updateUser (uid : Nat) (u : user) :
    ∀ cache : List (Nat × user), (lookupUser uid cache).isSome →
      lookupUser uid (updateUser uid u cache) = some u := by
  intro cache
  induction cache with
  | nil => intro h; simp [lookupUser] at h
  | cons hd tl ih =>
      intro h
      obtain ⟨k, v⟩ := hd
      by_cases hk : k = uid
      · simp [lookupUser, updateUser, hk]
      · simp [lookupUser, updateUser, hk] at h ⊢
        exact ih h

/-- Claim C1: for every inbound MESSAGE_REACTION_ADD dispatch on a shard with
a registered message_reaction_add handler, the handler is invoked if and
only if the reacting user and reacting channel are found in the cache and
the message id is non-null; otherwise the event is silently dropped. -/
theorem message_reaction_add_invoked_iff_resolved
    (find_guild : Nat → Option guild) (find_user : Nat → Option user)
    (find_channel : Nat → Option channel) (find_emoji : Nat → Option emoji)
    (j : Json) :
    (message_reaction_add.handle true find_guild find_user find_channel find_emoji j).isSome ↔
      ((find_user (SnowflakeNotNull (jsonIndex j ("d")) ("user_id"))).isSome ∧
       (find_channel (SnowflakeNotNull (jsonIndex j ("d")) ("channel_id"))).isSome ∧
       SnowflakeNotNull (jsonIndex j ("d")) ("message_id") ≠ 0) := by
  unfold message_reaction_add.handle
  simp only [if_true]
  by_cases hu : (find_user (SnowflakeNotNull (jsonIndex j ("d")) ("user_id"))).isSome <;>
    by_cases hc : (find_channel (SnowflakeNotNull (jsonIndex j ("d")) ("channel_id"))).isSome <;>
      by_cases hm : SnowflakeNotNull (jsonIndex j ("d")) ("message_id") = 0 <;>
        simp [hu, hc, hm]

/-- Claim C10: a USER_UPDATE whose d.id is nonzero and cached mutates the
cache entry in place through fill_from_json whether or not a handler is
registered, and the handler (when registered) is invoked exactly in that
case; when the id is null or the user is not cached, the cache is unchanged
and no handler runs. -/
theorem user_update_mutates_cache_and_invokes
    (registered : Bool) (fill : user → Json → user)
    (cache : List (Nat × user)) (j : Json) :
    (∀ u : user,
        SnowflakeNotNull (jsonIndex j ("d")) ("id") ≠ 0 →
        lookupUser (SnowflakeNotNull (jsonIndex j ("d")) ("id")) cache = some u →
        (user_update.handle registered fill cache j).1 =
          updateUser (SnowflakeNotNull (jsonIndex j ("d")) ("id"))
            (fill u (jsonIndex j ("d"))) cache ∧
        lookupUser (SnowflakeNotNull (jsonIndex j ("d")) ("id"))
            (user_update.handle registered fill cache j).1 =
          some (fill u (jsonIndex j ("d"))) ∧
        (user_update.handle registered fill cache j).2 = registered) ∧
    (SnowflakeNotNull (jsonIndex j ("d")) ("id") = 0 ∨
        lookupUser (SnowflakeNotNull (jsonIndex j ("d")) ("id")) cache = none →
        user_update.handle registered fill cache j = (cache, false)) := by
  constructor
  · intro u hid hfound
    have hmain : user_update.handle registered fill cache j =
        (updateUser (SnowflakeNotNull (jsonIndex j ("d")) ("id"))
          (fill u (jsonIndex j ("d"))) cache, registered) := by
      simp [user_update.handle, hid, hfound]
    refine ⟨by rw [hmain], ?_, by rw [hmain]⟩
    rw [hmain]
    exact lookupUser_updateUser _ _ cache (by simp [hfound])
  · intro h
    rcases h with h0 | hnone
    · simp [user_update.handle, h0]
    · by_cases hid : SnowflakeNotNull (jsonIndex j ("d")) ("id") = 0
      · simp [user_update.handle, hid]
      · simp [user_update.handle, hid, hnone]

/-- Witness for C1-adjacent hypotheses is not needed (no Prop hypothesis);
this closed witness discharges the hypotheses of the C10 theorem at a
concrete event: user 7 is cached, d.id is 7, the entry is replaced by the
filled user and the handler runs. -/
theorem user_update_mutates_cache_and_invokes_witness :
    ((user_update.handle true (fun _ _ => user.mk 99)
        [(7, user.mk 7)] (Json.obj [(("d"), Json.obj [(("id"), Json.num 7)])])).1 =
      updateUser 7 (user.mk 99) [(7, user.mk 7)] ∧
     lookupUser 7 (user_update.handle true (fun _ _ => user.mk 99)
        [(7, user.mk 7)] (Json.obj [(("d"), Json.obj [(("id"), Json.num 7)])])).1 =
      some (user.mk 99) ∧
     (user_update.handle true (fun _ _ => user.mk 99)
        [(7, user.mk 7)] (Json.obj [(("d"), Json.obj [(("id"), Json.num 7)])])).2 = true) := by
  have h := (user_update_mutates_cache_and_invokes true (fun _ _ => user.mk 99)
    [(7, user.mk 7)] (Json.obj [(("d"), Json.obj [(("id"), Json.num 7)])])).1
  have h7 : SnowflakeNotNull (jsonIndex
      (Json.obj [(("d"), Json.obj [(("id"), Json.num 7)])]) ("d")) ("id") = 7 := by
    simp [SnowflakeNotNull, jsonIndex, getField, lookupKey]
  have := h (user.mk 7) (by simp [h7]) (by simp [h7, lookupUser])
  simpa [h7] using this

/-- Option types of slash-command parameters (slashcommand.h). -/
inductive command_option_type where
  | co_sub_command
  | co_sub_command_group
  | co_string
  | co_integer
  | co_boolean
  | co_user
  | co_channel
  | co_role
deriving DecidableEq

/-- Numeric value of the command_option_type enum as serialised into JSON. -/
def command_option_type.toNat : command_option_type → Nat
  | co_sub_command => 1
  | co_sub_command_group => 2
  | co_string => 3
  | co_integer => 4
  | co_boolean => 5
  | co_user => 6
  | co_channel => 7
  | co_role => 8

/-- Variant command_value of slashcommand.h, in the alternative order of the
source: string, uint32_t, bool, snowflake. -/
inductive command_value where
  | vstr (s : String)
  | vu32 (n : Nat)
  | vbool (b : Bool)
  | vsnow (n : Nat)
deriving DecidableEq

/-- Choice in a multiple choice option (slashcommand.h). -/
structure command_option_choice where
  name : String
  value : command_value
deriving DecidableEq

/-- Command option (parameter) of a slash command (slashcommand.h). -/
structure command_option where
  type : command_option_type
  name : String
  description : String
  required : Bool
  choices : List command_option_choice
  options : List command_option

/-- Slash command (slashcommand.h); only the fields serialised by
build_json are modelled. -/
structure slashcommand where
  id : Nat
  name : String
  description : String
  options : List command_option

/-- Exceptions that slashcommand::build_json can raise: bad_variant_access
from std::get on a choice value holding neither the requested alternative,
and nlohmann type_error 308 from push_back called on an object value. -/
inductive BuildErr where
  | badVariantAccess
  | typeError
deriving DecidableEq

/-- Translation of the top-level choice serialisation in
slashcommand::build_json (slashcommand.cpp lines 65 to 74): the value is
written as a uint32_t when the variant holds one, otherwise read with
std::get of std::string, which throws bad_variant_access when the variant
holds a bool or a snowflake. -/
def choiceTopJson (ch : command_option_choice) : Except BuildErr Json :=
  match ch.value with
  | command_value.vu32 n =>
      Except.ok (Json.obj [(("name"), Json.str ch.name), (("value"), Json.num n)])
  | command_value.vstr s =>
      Except.ok (Json.obj [(("name"), Json.str ch.name), (("value"), Json.str s)])
  | _ => Except.error BuildErr.badVariantAccess

/-- Serialisation of a list of top-level choices in order, stopping at the
first exception. -/
def mapChoices : List command_option_choice → Except BuildErr (List Json)
  | [] => Except.ok []
  | ch :: rest =>
      match choiceTopJson ch with
      | Except.error e => Except.error e
      | Except.ok t =>
          match mapChoices rest with
          | Except.error e => Except.error e
          | Except.ok ts => Except.ok (t :: ts)

/-- Translation of the nested subcommand loop of slashcommand::build_json
(slashcommand.cpp lines 80 to 104). For each entry of opt.options the source
builds a fresh object o from the enclosing option opt (not from the
subcommand entry), then, when opt has choices, assembles an object v under
the choices key of o and calls v.push_back(o), which throws a type error
because v is an object at that point; when opt has no choices the source
pushes n (the enclosing option object, whose options array is aliased by
the accumulator) onto the nested options array. The argument nFields holds
the fields of n built so far and subs the current contents of the aliased
options array of n. -/
def subLoop (opt : command_option) (nFields : List (String × Json)) :
    List command_option → List Json → Except BuildErr (List Json)
  | [], subs => Except.ok subs
  | _sub :: rest, subs =>
      if opt.choices.isEmpty then
        subLoop opt nFields rest
          (subs ++ [Json.obj (nFields ++ [(("options"), Json.arr subs)])])
      else
        Except.error BuildErr.typeError

/-- Base fields assigned to the per-option object n by
slashcommand::build_json (slashcommand.cpp lines 56 to 60), in assignment
order. -/
def optionBase (opt : command_option) : List (String × Json) :=
  [(("name"), Json.str opt.name), (("description"), Json.str opt.description),
   (("type"), Json.num opt.type.toNat), (("required"), Json.bool opt.required)]

/-- Fields of the per-option object n after the top-level choices block
(slashcommand.cpp lines 62 to 75): the base fields, extended with the
choices array when the option has choices; propagates the
bad_variant_access exception of the choice serialisation. -/
def optionFieldsE (opt : command_option) : Except BuildErr (List (String × Json)) :=
  if opt.choices.isEmpty then Except.ok (optionBase opt)
  else
    match mapChoices opt.choices with
    | Except.error e => Except.error e
    | Except.ok cs => Except.ok (optionBase opt ++ [(("choices"), Json.arr cs)])

/-- Translation of the per-option body of slashcommand::build_json
(slashcommand.cpp lines 55 to 106): base fields, then the choices array,
then the nested options array produced by the subcommand loop. -/
def optionJson (opt : command_option) : Except BuildErr Json :=
  match optionFieldsE opt with
  | Except.error e => Except.error e
  | Except.ok fields =>
      if opt.options.isEmpty then Except.ok (Json.obj fields)
      else
        match subLoop opt fields opt.options [] with
        | Except.error e => Except.error e
        | Except.ok subs => Except.ok (Json.obj (fields ++ [(("options"), Json.arr subs)]))

/-- Serialisation of the top-level options in order, stopping at the first
exception. -/
def mapOptions : List command_option → Except BuildErr (List Json)
  | [] => Except.ok []
  | opt :: rest =>
      match optionJson opt with
      | Except.error e => Except.error e
      | Except.ok o =>
          match mapOptions rest with
          | Except.error e => Except.error e
          | Except.ok os => Except.ok (o :: os)

/-- Translation of slashcommand::build_json (slashcommand.cpp lines 45 to
110), returning the JSON tree that the source dumps to a string, or the
exception the source throws. -/
def slashcommand.build_json (with_id : Bool) (cmd : slashcommand) : Except BuildErr Json :=
  let base : List (String × Json) :=
    (if with_id then [(("id"), Json.str (Nat.repr cmd.id))] else []) ++
      [(("name"), Json.str cmd.name), (("description"), Json.str cmd.description)]
  if cmd.options.isEmpty then Except.ok (Json.obj base)
  else
    match mapOptions cmd.options with
    | Except.error e => Except.error e
    | Except.ok os => Except.ok (Json.obj (base ++ [(("options"), Json.arr os)]))

/-- Concrete slash command exercising the nested subcommand path: one
top-level option named parent with a single subcommand named sub and no
choices. -/
def cmdNested : slashcommand :=
  { id := 0, name := ("cmd"), description := ("cd"),
    options :=
      [{ type := command_option_type.co_sub_command_group, name := ("parent"),
         description := ("pd"), required := false, choices := [],
         options :=
           [{ type := command_option_type.co_sub_command, name := ("sub"),
              description := ("sd"), required := true, choices := [], options := [] }] }] }

/-- Claim C2 (code evaluation at the failing input): on a slash command with
one top-level option named parent holding one subcommand named sub and no
choices, build_json pushes the enclosing option object n into the nested
options array: the single pushed element carries the parent fields (name
parent, description pd, type 2, required false) and even an aliased options
key, instead of a fresh sub-object built from the subcommand (name sub). -/
theorem slashcommand_nested_push_duplicates_parent :
    slashcommand.build_json false cmdNested =
      Except.ok (Json.obj
        [(("name"), Json.str ("cmd")), (("description"), Json.str ("cd")),
         (("options"), Json.arr
           [Json.obj
             [(("name"), Json.str ("parent")), (("description"), Json.str ("pd")),
              (("type"), Json.num 2), (("required"), Json.bool false),
              (("options"), Json.arr
                [Json.obj
                  [(("name"), Json.str ("parent")), (("description"), Json.str ("pd")),
                   (("type"), Json.num 2), (("required"), Json.bool false),
                   (("options"), Json.arr [])]])]])]) := rfl

/-- Decision of whether a choice value holds the string or the uint32_t
alternative of the command_value variant (the two alternatives the
top-level choice serialisation can handle without throwing). -/
def stringOrU32 : command_value → Bool
  | command_value.vstr _ => true
  | command_value.vu32 _ => true
  | _ => false

theorem choiceTopJson_ok (ch : command_option_choice)
    (h : stringOrU32 ch.value = true) : ∃ t, choiceTopJson ch = Except.ok t := by
  cases hv : ch.value with
  | vstr s =>
      exact ⟨Json.obj [(("name"), Json.str ch.name), (("value"), Json.str s)],
        by simp [choiceTopJson, hv]⟩
  | vu32 n =>
      exact ⟨Json.obj [(("name"), Json.str ch.name), (("value"), Json.num n)],
        by simp [choiceTopJson, hv]⟩
  | vbool b => simp [stringOrU32, hv] at h
  | vsnow n => simp [stringOrU32, hv] at h

theorem mapChoices_ok : ∀ chs : List command_option_choice,
    (∀ ch ∈ chs, stringOrU32 ch.value = true) →
    ∃ ts, mapChoices chs = Except.ok ts := by
  intro chs
  induction chs with
  | nil => exact fun _ => ⟨[], rfl⟩
  | cons ch rest ih =>
      intro h
      obtain ⟨t, ht⟩ := choiceTopJson_ok ch (h ch (by simp))
      obtain ⟨ts, hts⟩ := ih (fun c hc => h c (by simp [hc]))
      exact ⟨t :: ts, by simp [mapChoices, ht, hts]⟩

theorem subLoop_not_bva (opt : command_option) (nFields : List (String × Json)) :
    ∀ (rest : List command_option) (subs : List Json),
      subLoop opt nFields rest subs ≠ Except.error BuildErr.badVariantAccess := by
  intro rest
  induction rest with
  | nil => intro subs h; simp [subLoop] at h
  | cons s rest ih =>
      intro subs h
      by_cases hc : opt.choices.isEmpty
      · simp only [subLoop, hc, if_true] at h
        exact ih _ h
      · simp [subLoop, hc] at h

theorem optionFieldsE_ok (opt : command_option)
    (h : ∀ ch ∈ opt.choices, stringOrU32 ch.value = true) :
    ∃ fields, optionFieldsE opt = Except.ok fields := by
  by_cases hc : opt.choices.isEmpty
  · exact ⟨optionBase opt, by simp [optionFieldsE, hc]⟩
  · obtain ⟨ts, hts⟩ := mapChoices_ok opt.choices h
    exact ⟨optionBase opt ++ [(("choices"), Json.arr ts)],
      by simp [optionFieldsE, hc, hts]⟩

theorem optionJson_not_bva (opt : command_option)
    (h : ∀ ch ∈ opt.choices, stringOrU32 ch.value = true) :
    optionJson opt ≠ Except.error BuildErr.badVariantAccess := by
  intro hbad
  obtain ⟨fields, hf⟩ := optionFieldsE_ok opt h
  by_cases ho : opt.options.isEmpty
  · simp [optionJson, hf, ho] at hbad
  · cases hs : subLoop opt fields opt.options [] with
    | ok subs => simp [optionJson, hf, ho, hs] at hbad
    | error e =>
        cases e with
        | badVariantAccess => exact subLoop_not_bva opt fields opt.options [] hs
        | typeError => simp [optionJson, hf, ho, hs] at hbad

theorem mapOptions_not_bva : ∀ opts : List command_option,
    (∀ opt ∈ opts, ∀ ch ∈ opt.choices, stringOrU32 ch.value = true) →
    mapOptions opts ≠ Except.error BuildErr.badVariantAccess := by
  intro opts
  induction opts with
  | nil => intro _ hbad; simp [mapOptions] at hbad
  | cons opt rest ih =>
      intro h hbad
      cases ho : optionJson opt with
      | error e =>
          cases e with
          | badVariantAccess => exact optionJson_not_bva opt (h opt (by simp)) ho
          | typeError => simp [mapOptions, ho] at hbad
      | ok o =>
          cases hr : mapOptions rest with
          | error e =>
              cases e with
              | badVariantAccess =>
                  exact ih (fun x hx => h x (List.mem_cons_of_mem _ hx)) hr
              | typeError => simp [mapOptions, ho, hr] at hbad
          | ok os => simp [mapOptions, ho, hr] at hbad

/-- Concrete slash command whose only top-level option has a choice holding
the bool alternative of the variant. -/
def cmdBadChoice : slashcommand :=
  { id := 0, name := ("flag"), description := ("fd"),
    options :=
      [{ type := command_option_type.co_boolean, name := ("switch"),
         description := ("sw"), required := false,
         choices := [{ name := ("yes"), value := command_value.vbool true }],
         options := [] }] }

/-- Claim C8: slashcommand::build_json reaches std::get of std::string on a
non-string alternative and throws bad_variant_access for a command whose
top-level option has a choice holding a bool (first conjunct, at a concrete
input), while under the precondition that every top-level option choice
holds a string or uint32_t value the bad_variant_access branch is
unreachable (second conjunct). -/
theorem build_json_bad_variant_iff_bad_top_choice :
    slashcommand.build_json false cmdBadChoice =
      Except.error BuildErr.badVariantAccess ∧
    ∀ (with_id : Bool) (cmd : slashcommand),
      (∀ opt ∈ cmd.options, ∀ ch ∈ opt.choices, stringOrU32 ch.value = true) →
      slashcommand.build_json with_id cmd ≠ Except.error BuildErr.badVariantAccess := by
  constructor
  · rfl
  · intro with_id cmd h hbad
    by_cases hempty : cmd.options.isEmpty
    · simp [slashcommand.build_json, hempty] at hbad
    · cases hm : mapOptions cmd.options with
      | error e =>
          cases e with
          | badVariantAccess => exact mapOptions_not_bva cmd.options h hm
          | typeError => simp [slashcommand.build_json, hempty, hm] at hbad
      | ok os => simp [slashcommand.build_json, hempty, hm] at hbad

/-- Concrete slash command satisfying the precondition of the C8 theorem:
its only top-level option carries one uint32_t choice and one string
choice. -/
def cmdGoodChoices : slashcommand :=
  { id := 0, name := ("roll"), description := ("rd"),
    options :=
      [{ type := command_option_type.co_integer, name := ("sides"),
         description := ("sides"), required := true,
         choices := [{ name := ("six"), value := command_value.vu32 6 },
                     { name := ("twenty"), value := command_value.vstr ("20") }],
         options := [] }] }

/-- Witness for the C8 theorem: the precondition is discharged at the
concrete command cmdGoodChoices, whose build does not raise
bad_variant_access. -/
theorem build_json_bad_variant_iff_bad_top_choice_witness :
    slashcommand.build_json false cmdGoodChoices ≠
      Except.error BuildErr.badVariantAccess :=
  build_json_bad_variant_iff_bad_top_choice.2 false cmdGoodChoices (by
    intro opt hopt ch hch
    simp [cmdGoodChoices] at hopt
    subst hopt
    simp at hch
    rcases hch with h1 | h2
    · simp [h1, stringOrU32]
    · simp [h2, stringOrU32])

/-- Value of a command parameter supplied by the user (slashcommand.h
command_data_option); nested options are never populated by the parser in
the source, but the field exists. -/
inductive command_data_option where
  | mk (name : String) (type : Nat) (value : command_value)
       (options : List command_data_option)

/-- Command payload of an interaction (slashcommand.h command_interaction). -/
structure command_interaction where
  id : Nat
  name : String
  options : List command_data_option

/-- Button payload of an interaction (slashcommand.h button_interaction). -/
structure button_interaction where
  component_type : Nat
  custom_id : String

/-- Payload variant of dpp::interaction: std::variant over
command_interaction and button_interaction, whose default-constructed state
holds a default command_interaction (the first alternative). -/
inductive InteractionData where
  | command (ci : command_interaction)
  | button (bi : button_interaction)

/-- Default-constructed command_interaction. -/
def commandInteractionDefault : command_interaction :=
  { id := 0, name := "", options := [] }

/-- Elements visited by a range-for over a json value in nlohmann: array
elements in order, object mapped values, nothing for null, the value itself
for primitives. -/
def jsonElems (j : Json) : List Json :=
  match j with
  | Json.null => []
  | Json.arr xs => xs
  | Json.obj fs => fs.map (fun p => p.2)
  | v => [v]

/-- Translation of the per-option parsing loop of interaction::fill_from_json
(slashcommand.cpp lines 178 to 198): name and type are read, then the value
according to the switch on the option type; types without a case (sub
command and group) leave the variant default-constructed (the string
alternative, empty). The co_integer value read by Int32NotNull lands in the
uint32_t alternative of the variant. -/
def commandDataOptionFromJson (opt : Json) : command_data_option :=
  let ty := Int8NotNull opt ("type")
  let value : command_value :=
    if ty = 5 then command_value.vbool (BoolNotNull opt ("value"))
    else if ty = 7 ∨ ty = 8 ∨ ty = 6 then command_value.vsnow (SnowflakeNotNull opt ("value"))
    else if ty = 4 then command_value.vu32 (Int32NotNull opt ("value"))
    else if ty = 3 then command_value.vstr (StringNotNull opt ("value"))
    else command_value.vstr ("")
  command_data_option.mk (StringNotNull opt ("name")) ty value []

/-- Translation of the command branch of interaction::fill_from_json
(slashcommand.cpp lines 170 to 202): a default command_interaction, filled
from the data object when present. -/
def command_interaction.from_json (j : Json) : command_interaction :=
  match getField j ("data") with
  | none => commandInteractionDefault
  | some param =>
      { id := SnowflakeNotNull param ("id"),
        name := StringNotNull param ("name"),
        options :=
          match getField param ("options") with
          | some opts => (jsonElems opts).map commandDataOptionFromJson
          | none => [] }

/-- Translation of the button branch of interaction::fill_from_json
(slashcommand.cpp lines 203 to 210). -/
def button_interaction.from_json (j : Json) : button_interaction :=
  match getField j ("data") with
  | none => { component_type := 0, custom_id := "" }
  | some param =>
      { component_type := Int8NotNull param ("component_type"),
        custom_id := StringNotNull param ("custom_id") }

/-- Interaction record (slashcommand.h). The member and usr sub-objects are
filled by guild_member::fill_from_json and user::fill_from_json, whose
bodies are not in the provided sources; the model records the JSON they
would be filled from. -/
structure interaction where
  id : Nat
  application_id : Nat
  channel_id : Nat
  guild_id : Nat
  token : String
  type : Nat
  version : Nat
  member_src : Json
  usr_src : Json
  data : InteractionData

/-- Default-constructed interaction: the payload variant holds the
default-constructed first alternative (command_interaction). -/
def interactionDefault : interaction :=
  { id := 0, application_id := 0, channel_id := 0, guild_id := 0,
    token := "", type := 0, version := 0,
    member_src := Json.null, usr_src := Json.null,
    data := InteractionData.command commandInteractionDefault }

/-- Translation of interaction::fill_from_json (slashcommand.cpp lines 154
to 213): scalar fields, member/user blocks, then the payload variant is
assigned a command_interaction exactly on type it_application_command (2)
and a button_interaction exactly on type it_component_button (3); any other
type (such as it_ping, 1) leaves the variant untouched. -/
def interaction.fill_from_json (prev : interaction) (j : Json) : interaction :=
  let ty := Int8NotNull j ("type")
  let base : interaction :=
    { prev with
      id := SnowflakeNotNull j ("id"),
      application_id := SnowflakeNotNull j ("application_id"),
      channel_id := SnowflakeNotNull j ("channel_id"),
      guild_id := SnowflakeNotNull j ("guild_id"),
      token := StringNotNull j ("token"),
      type := ty,
      version := Int8NotNull j ("version"),
      member_src :=
        (match getField j ("member") with
         | some m => m
         | none => prev.member_src),
      usr_src :=
        (match getField j ("member") with
         | some m => jsonIndex m ("user")
         | none => prev.usr_src) }
  let base2 : interaction :=
    match getField j ("user") with
    | some u => { base with usr_src := u }
    | none => base
  if ty = 2 then
    { base2 with data := InteractionData.command (command_interaction.from_json j) }
  else if ty = 3 then
    { base2 with data := InteractionData.button (button_interaction.from_json j) }
  else
    base2

/-- Claim C7: after interaction::fill_from_json on a fresh interaction, the
payload variant is assigned a command_interaction parsed from the JSON
exactly when the parsed type is it_application_command (2), a
button_interaction parsed from the JSON exactly when the parsed type is
it_component_button (3), and for any other parsed type (it_ping included)
neither alternative is constructed from the JSON: the variant keeps its
default-constructed state. -/
theorem interaction_payload_matches_type (j : Json) :
    (Int8NotNull j ("type") = 2 →
      (interaction.fill_from_json interactionDefault j).data =
        InteractionData.command (command_interaction.from_json j)) ∧
    (Int8NotNull j ("type") = 3 →
      (interaction.fill_from_json interactionDefault j).data =
        InteractionData.button (button_interaction.from_json j)) ∧
    (Int8NotNull j ("type") ≠ 2 → Int8NotNull j ("type") ≠ 3 →
      (interaction.fill_from_json interactionDefault j).data =
        InteractionData.command commandInteractionDefault) ∧
    (∀ bi : button_interaction,
      (interaction.fill_from_json interactionDefault j).data =
        InteractionData.button bi →
      Int8NotNull j ("type") = 3) := by
  refine ⟨?_, ?_, ?_, ?_⟩
  · intro h2
    cases hu : getField j ("user") <;>
      simp [interaction.fill_from_json, h2, hu]
  · intro h3
    cases hu : getField j ("user") <;>
      simp [interaction.fill_from_json, h3, hu]
  · intro h2 h3
    cases hu : getField j ("user") <;>
      cases hm : getField j ("member") <;>
        simp [interaction.fill_from_json, h2, h3, hu, hm, interactionDefault]
  · intro bi hbi
    by_cases h2 : Int8NotNull j ("type") = 2
    · cases hu : getField j ("user") <;>
        simp [interaction.fill_from_json, h2, hu] at hbi
    · by_cases h3 : Int8NotNull j ("type") = 3
      · exact h3
      · cases hu : getField j ("user") <;>
          cases hm : getField j ("member") <;>
            simp [interaction.fill_from_json, h2, h3, hu, hm, interactionDefault] at hbi

/-- Concrete slash-command interaction dispatch (type 2) used to discharge
the hypotheses of the C7 theorem. -/
def jCommandSample : Json :=
  Json.obj [(("type"), Json.num 2),
            (("data"), Json.obj [(("id"), Json.str ("5")), (("name"), Json.str ("hi"))])]

/-- Witness for the C7 theorem at a concrete application-command dispatch:
the parsed type is 2 and the payload is the command_interaction parsed from
the data object. -/
theorem interaction_payload_matches_type_witness :
    (interaction.fill_from_json interactionDefault jCommandSample).data =
      InteractionData.command (command_interaction.from_json jCommandSample) :=
  (interaction_payload_matches_type jCommandSample).1 (by rfl)

/-- Interaction response (slashcommand.h): the stored response type and the
wrapped message, the latter abstracted by the fields of its serialised form
msg->build_json() parsed back to an object (message is an external
collaborator whose code is not in the provided sources). -/
structure interaction_response where
  type : Nat
  msg_fields : List (String × Json)

/-- Translation of interaction_response::fill_from_json (slashcommand.cpp
lines 232 to 238): the parsed type is stored whatever its value, and when a
data object is present the wrapped message is filled from it through
message::fill_from_json, abstracted here by the function argument msgFill
acting on the serialised message fields. -/
def interaction_response.fill_from_json
    (msgFill : List (String × Json) → Json → List (String × Json))
    (prev : interaction_response) (j : Json) : interaction_response :=
  { type := Int8NotNull j ("type"),
    msg_fields :=
      match getField j ("data") with
      | some dat => msgFill prev.msg_fields dat
      | none => prev.msg_fields }

/-- Removal of the first entry with the given key from an object field list,
modelling msg_json.erase(cid) on the unique-key nlohmann object. -/
def eraseKey (k : String) : List (String × Json) → List (String × Json)
  | [] => []
  | (k2, v) :: rest => if k2 = k then rest else (k2, v) :: eraseKey k rest

/-- Translation of interaction_response::build_json (slashcommand.cpp lines
240 to 250): an object holding the stored type under the type key and,
under the data key, the message fields with the channel_id entry erased
when present. -/
def interaction_response.build_json (r : interaction_response) : Json :=
  Json.obj [(("type"), Json.num r.type),
            (("data"), Json.obj (eraseKey ("channel_id") r.msg_fields))]

theorem lookupKey_eraseKey_ne (k k2 : String) (hne : k2 ≠ k) :
    ∀ fields : List (String × Json),
      lookupKey k2 (eraseKey k fields) = lookupKey k2 fields := by
  intro fields
  induction fields with
  | nil => rfl
  | cons hd rest ih =>
      obtain ⟨k3, v⟩ := hd
      by_cases h3 : k3 = k
      · have hk2 : ¬ k = k2 := fun h => hne h.symm
        simp [eraseKey, lookupKey, h3, hk2]
      · by_cases h32 : k3 = k2
        · simp [eraseKey, lookupKey, h3, h32, hne]
        · simp [eraseKey, lookupKey, h3, h32, ih]

theorem lookupKey_eq_none_of_not_mem (k : String) :
    ∀ fields : List (String × Json), k ∉ fields.map Prod.fst →
      lookupKey k fields = none := by
  intro fields
  induction fields with
  | nil => intro _; rfl
  | cons hd rest ih =>
      intro hmem
      obtain ⟨k3, v⟩ := hd
      have h3 : ¬ k3 = k := by
        intro h
        exact hmem (by simp [h])
      have hrest : k ∉ rest.map Prod.fst := by
        intro h
        exact hmem (by simp [h])
      simp [lookupKey, h3, ih hrest]

theorem lookupKey_eraseKey_self (k : String) :
    ∀ fields : List (String × Json), (fields.map Prod.fst).Nodup →
      lookupKey k (eraseKey k fields) = none := by
  intro fields
  induction fields with
  | nil => intro _; rfl
  | cons hd rest ih =>
      intro hnd
      obtain ⟨k3, v⟩ := hd
      by_cases h3 : k3 = k
      · subst h3
        have hnd2 := List.nodup_cons.mp
          (show (k3 :: rest.map Prod.fst).Nodup by simpa using hnd)
        have he : eraseKey k3 ((k3, v) :: rest) = rest := by simp [eraseKey]
        rw [he]
        exact lookupKey_eq_none_of_not_mem k3 rest hnd2.1
      · have hnd2 := List.nodup_cons.mp
          (show (k3 :: rest.map Prod.fst).Nodup by simpa using hnd)
        simp [eraseKey, lookupKey, h3, ih hnd2.2]

/-- Claim C9: interaction_response::build_json returns an object holding
exactly the response type under the type key and the wrapped message JSON
under the data key, where the channel_id entry has been removed and (for the
unique keys of an nlohmann object) no channel_id key remains, while every
other field of the message JSON is unchanged. -/
theorem interaction_response_build_frame (r : interaction_response) :
    interaction_response.build_json r =
      Json.obj [(("type"), Json.num r.type),
                (("data"), Json.obj (eraseKey ("channel_id") r.msg_fields))] ∧
    (∀ k : String, k ≠ ("channel_id") →
      lookupKey k (eraseKey ("channel_id") r.msg_fields) = lookupKey k r.msg_fields) ∧
    ((r.msg_fields.map Prod.fst).Nodup →
      lookupKey ("channel_id") (eraseKey ("channel_id") r.msg_fields) = none) :=
  ⟨rfl,
   fun k hk => lookupKey_eraseKey_ne ("channel_id") k hk r.msg_fields,
   fun hnd => lookupKey_eraseKey_self ("channel_id") r.msg_fields hnd⟩

/-- Witness for the C9 theorem at a concrete response: a message serialising
to a content field and a channel_id field; the content lookup is unchanged
after the erase and the channel_id lookup is gone. -/
theorem interaction_response_build_frame_witness :
    lookupKey ("content")
        (eraseKey ("channel_id")
          [(("content"), Json.str ("hi")), (("channel_id"), Json.num 1)]) =
      lookupKey ("content")
        [(("content"), Json.str ("hi")), (("channel_id"), Json.num 1)] ∧
    lookupKey ("channel_id")
        (eraseKey ("channel_id")
          [(("content"), Json.str ("hi")), (("channel_id"), Json.num 1)]) = none := by
  have h := interaction_response_build_frame
    (interaction_response.mk 4 [(("content"), Json.str ("hi")), (("channel_id"), Json.num 1)])
  exact ⟨h.2.1 ("content") (by decide), h.2.2 (by simp)⟩

/-- Claim C6 counterexample: build_json does emit payloads with the
deprecated response types; with stored type ir_acknowledge (2) or
ir_channel_message (3) the emitted object carries that type, refuting the
rejected-for-send half of the claim. -/
theorem deprecated_types_emitted_on_send :
    getField (interaction_response.build_json (interaction_response.mk 2 [])) ("type") =
      some (Json.num 2) ∧
    getField (interaction_response.build_json (interaction_response.mk 3 [])) ("type") =
      some (Json.num 3) := by
  constructor <;> rfl

/-- Claim C6 as amended: the deprecated response types ir_acknowledge (2)
and ir_channel_message (3) are accepted when parsing (fill_from_json stores
any parsed 8-bit type, 2 and 3 included) and are also emitted unchanged
when sending (build_json writes the stored type into the payload without
any send-side rejection). -/
theorem deprecated_types_accepted_parse_and_send
    (t : Nat) (msgFill : List (String × Json) → Json → List (String × Json))
    (prev r : interaction_response) :
    (interaction_response.fill_from_json msgFill prev
        (Json.obj [(("type"), Json.num t)])).type = t % 256 ∧
    getField (interaction_response.build_json r) ("type") = some (Json.num r.type) := by
  constructor
  · simp [interaction_response.fill_from_json, Int8NotNull, getField, lookupKey]
  · rfl

/-- Modelled from the spec: the body of DiscordClient::QueueMessage is not in
the provided sources; its declaration (discordclient.h lines 258 to 266)
documents that with to_front set the message is placed at the front of the
per-shard deque (urgent messages such as heartbeat and presence), otherwise
at the back, and spec section 4.4.3 has priority sends placed at the head of
a single deque that each tick drains from the head. -/
def QueueMessage (message_queue : List String) (j : String) (to_front : Bool) : List String :=
  if to_front then j :: message_queue else message_queue ++ [j]

/-- Deque contents after a sequence of QueueMessage calls (message paired
with its to_front flag) applied in arrival order with no interleaved sends;
the send order is the resulting list from the front. -/
def enqueueAll : List (String × Bool) → List String → List String
  | [], q => q
  | (m, f) :: rest, q => enqueueAll rest (QueueMessage q m f)

/-- Messages queued with to_front = true, in arrival order. -/
def priorityArrivals (ops : List (String × Bool)) : List String :=
  (ops.filter (fun p => p.2)).map (fun p => p.1)

/-- Messages queued with to_front = false, in arrival order. -/
def normalArrivals (ops : List (String × Bool)) : List String :=
  (ops.filter (fun p => !p.2)).map (fun p => p.1)

theorem enqueueAll_closed_form (ops : List (String × Bool)) :
    ∀ q : List String,
      enqueueAll ops q = (priorityArrivals ops).reverse ++ q ++ normalArrivals ops := by
  induction ops with
  | nil => intro q; simp [enqueueAll, priorityArrivals, normalArrivals]
  | cons p rest ih =>
      intro q
      obtain ⟨m, f⟩ := p
      cases f
      · simp [enqueueAll, QueueMessage, priorityArrivals, normalArrivals, ih]
      · simp [enqueueAll, QueueMessage, priorityArrivals, normalArrivals, ih]

/-- Claim C4 counterexample: two priority messages queued in the order P1
then P2 (both with to_front = true, no sends in between) end up in the
deque as P2 then P1, so the send order of the priority class reverses the
arrival order, refuting the within-class FIFO part of the claim. -/
theorem queue_priority_class_not_fifo :
    enqueueAll [(("P1"), true), (("P2"), true)] [] = [("P2"), ("P1")] ∧
    (("P2") ≠ ("P1")) ∧
    [("P2"), ("P1")] ≠ [("P1"), ("P2")] := by
  refine ⟨rfl, by decide, by decide⟩

/-- Claim C4 as amended: with front insertion for priority and back
insertion otherwise, the pending deque after any interleaving of
QueueMessage calls is the reversed arrival sequence of the priority
messages followed by the arrival sequence of the non-priority messages:
every priority message is sent before every pending non-priority message
(in particular before every non-priority message queued before it),
non-priority messages keep FIFO order among themselves, and pending
priority messages are sent in reverse arrival (LIFO) order rather than
FIFO. -/
theorem queue_priority_before_normal_fifo_within_normal
    (ops : List (String × Bool)) :
    enqueueAll ops [] = (priorityArrivals ops).reverse ++ normalArrivals ops := by
  have h := enqueueAll_closed_form ops []
  simpa using h

/-- Modelled from the spec: the body of DiscordClient::OneSecondTimer is not
in the provided sources (declared at discordclient.h line 256). Spec section
4.4.2: on every one-second tick after HELLO, when now minus
last_heartbeat_sent reaches heartbeat_interval a heartbeat is pushed and
last_heartbeat_sent set to now; when last_heartbeat_ack is smaller than
last_heartbeat_sent minus heartbeat_interval the shard is zombied and the
connection forcibly reset. Times are integers as with time_t arithmetic. -/
structure ShardHeartbeatState where
  hello_received : Bool
  now : Int
  last_heartbeat : Int
  last_heartbeat_ack : Int
  heartbeat_interval : Int

/-- Result of one tick: the updated shard state, whether a heartbeat was
queued, and whether the connection was forcibly reset as zombied. -/
structure TickResult where
  state : ShardHeartbeatState
  heartbeat_sent : Bool
  forced_reconnect : Bool

/-- Modelled from the spec: one-second tick of the heartbeat loop (spec
section 4.4.2), see ShardHeartbeatState. -/
def OneSecondTimer (s : ShardHeartbeatState) : TickResult :=
  if s.hello_received then
    let s1 := if s.now - s.last_heartbeat ≥ s.heartbeat_interval
              then { s with last_heartbeat := s.now } else s
    { state := s1,
      heartbeat_sent := decide (s.now - s.last_heartbeat ≥ s.heartbeat_interval),
      forced_reconnect :=
        decide (s1.last_heartbeat_ack < s1.last_heartbeat - s1.heartbeat_interval) }
  else
    { state := s, heartbeat_sent := false, forced_reconnect := false }

/-- Claim C3: on a one-second tick after HELLO, the connection is forcibly
reset (zombied) exactly when the last heartbeat ACK time has fallen behind
the (possibly just-updated) last heartbeat sent time by more than
heartbeat_interval. -/
theorem zombie_forces_reconnect (s : ShardHeartbeatState)
    (h : s.hello_received = true) :
    (OneSecondTimer s).forced_reconnect = true ↔
      s.last_heartbeat_ack <
        (OneSecondTimer s).state.last_heartbeat - s.heartbeat_interval := by
  by_cases hsend : s.now - s.last_heartbeat ≥ s.heartbeat_interval <;>
    simp [OneSecondTimer, h, hsend]

/-- Witness for the C3 theorem at a concrete post-HELLO state: now 10, last
heartbeat 0 (so a heartbeat is due and sent, updating it to 10), ACK at -5
and interval 2; the ACK lags the updated send time by more than the
interval, and the tick indeed forces a reconnect. -/
theorem zombie_forces_reconnect_witness :
    (OneSecondTimer (ShardHeartbeatState.mk true 10 0 (-5) 2)).forced_reconnect = true ↔
      (-5 : Int) <
        (OneSecondTimer (ShardHeartbeatState.mk true 10 0 (-5) 2)).state.last_heartbeat - 2 :=
  zombie_forces_reconnect (ShardHeartbeatState.mk true 10 0 (-5) 2) rfl

/-- Modelled from the spec: the voice websocket client, represented only by
whether UDP IP discovery has completed (spec section 4.5, steps 6 to 8). -/
structure DiscordVoiceClient where
  ip_discovery_complete : Bool

/-- Voice connection record (discordclient.h lines 49 to 125): channel id,
websocket hostname, session id, token and the optional voice websocket
client. -/
structure voiceconn where
  channel_id : Nat
  websocket_hostname : String
  session_id : String
  token : String
  voiceclient : Option DiscordVoiceClient

/-- Modelled from the spec: the body of voiceconn::is_ready is not in the
provided sources (declaration at discordclient.h lines 98 to 104). Spec
section 3: a VoiceConnection is ready iff all of endpoint, token and
session id are populated. -/
def voiceconn.is_ready (v : voiceconn) : Bool :=
  v.websocket_hostname != ("") && v.token != ("") && v.session_id != ("")

/-- Modelled from the spec: the body of voiceconn::is_active is not in the
provided sources (declaration at discordclient.h lines 106 to 111). Spec
section 3: it becomes active iff its websocket exists and has completed IP
discovery. -/
def voiceconn.is_active (v : voiceconn) : Bool :=
  match v.voiceclient with
  | some vc => vc.ip_discovery_complete
  | none => false

/-- Claim C5: is_ready holds exactly when the websocket hostname, token and
session id are all populated, and is_active holds exactly when the voice
websocket client exists and has completed IP discovery. -/
theorem voiceconn_ready_and_active_iff (v : voiceconn) :
    (v.is_ready = true ↔
      (v.websocket_hostname ≠ ("") ∧ v.token ≠ ("") ∧ v.session_id ≠ (""))) ∧
    (v.is_active = true ↔
      (∃ vc : DiscordVoiceClient,
        v.voiceclient = some vc ∧ vc.ip_discovery_complete = true)) := by
  constructor
  · simp [voiceconn.is_ready, and_assoc]
  · cases hvc : v.voiceclient with
    | none => simp [voiceconn.is_active, hvc]
    | some vc => simp [voiceconn.is_active, hvc]
